import Mathlib

/-!
# Data table view-state controller (`src/components/Table.js`)

A shallow embedding of the `Table` component's state and event handlers.

* Each `useState` cell is a field of `State`; each handler is a function
  `State → State` that performs the handler's setter calls on the values
  captured by the render in which the handler was created.
* Plain JavaScript objects with string keys (`columnVisibility`, `filters`)
  are association lists of their own entries; `objGet` is property read
  (`none` is `undefined`) and `objSet o k v` is `{ ...o, [k]: v }`.
* External collaborators are parameters: the record collection `sampleData`, the
  search method of the `Fuse` index, and the value of `col.id` on the entries of
  `columns`. The last one is read at two times: by the initial-state reduce of
  lines 44-47 during the first render (`mountColumnIds`), and by the drawer and
  `handleShowAllColumns` in later renders (`columns`).
-/

namespace DataTable

/-! ## JavaScript objects -/

/-- A plain object with string keys: its own entries. -/
abbrev JsObject (V : Type) := List (String × V)

/-- Property read `o[k]`; `none` stands for `undefined`. -/
def objGet {V : Type} : JsObject V → String → Option V
  | [], _ => none
  | (k', v') :: rest, k => if k' = k then some v' else objGet rest k

/-- Spread-and-override `{ ...o, [k]: v }` (also `acc[k] = v` on an accumulator): an
existing key keeps its place, a new key goes last. The list order is the order of
first insertion; no statement below depends on how an object enumerates its keys. -/
def objSet {V : Type} : JsObject V → String → V → JsObject V
  | [], k, v => [(k, v)]
  | (k', v') :: rest, k, v =>
      if k' = k then (k', v) :: rest else (k', v') :: objSet rest k v

/-! ## Data model -/

/-- Values that the filter drawer passes to `handleFilter` (lines 193, 203, 218, 230, 237):
a text box string, a multi-select array, a slider array, a `start`/`end` object. -/
inductive FilterValue where
  | text (query : String)
  | set (values : List String)
  | range (bounds : List Int)
  | dateRange (startDate : Option String) (endDate : Option String)
deriving DecidableEq, Repr

/-- A record of `sampleData`, with the fields named by the column accessors (lines 15-38). -/
structure Record where
  id : Nat
  name : String
  category : String
  subcategory : String
  price : Int
  createdAt : String
  updatedAt : String
deriving DecidableEq, Repr

/-- An entry of the array returned by `fuse.search` (line 63 reads its `item`). -/
structure FuseResult where
  item : Record
  refIndex : Nat
deriving DecidableEq, Repr

/-- The `useState` cells of `Table` (lines 42-54). -/
structure State where
  globalFilter : String
  columnVisibility : JsObject Bool
  tempColumnVisibility : JsObject Bool
  filters : JsObject FilterValue
  drawerOpen : Bool
  drawerContent : Option String
  groupBy : List String
  tempGroupBy : List String
deriving DecidableEq, Repr

/-- The object handed to the table widget as `state` (line 147). -/
structure ViewState where
  globalFilter : String
  columnVisibility : JsObject Bool
  filters : JsObject FilterValue
  grouping : List String
deriving DecidableEq, Repr

/-- The accessor keys of `columns` (lines 14-39), in order. These are the ids that the
column definitions carry once the table widget of line 144 has rendered (it gives each
definition without an `id` its accessor key), so they are what `column.id` reads in the
drawer (lines 164-170, 185-237) and `col.id` in `handleShowAllColumns` (line 112). -/
def columns : List String :=
  ["id", "name", "category", "subcategory", "price", "createdAt", "updatedAt"]

/-- What `col.id` reads, as a property key, when the initial-state reduce of lines 44-47
runs in the first render: `columnHelper.accessor(key, { header })` returns the
definition with `accessorKey` only, so `col.id` is `undefined` for each of the seven
definitions and `acc[col.id]` writes the key `"undefined"`. -/
def mountColumnIds : List String :=
  columns.map (fun _ => "undefined")

/-- The reduce of lines 44-47 and 111-114: `acc[col.id] = true` for each column, from `{}`. -/
def allVisible (cols : List String) : JsObject Bool :=
  cols.foldl (fun acc col => objSet acc col true) []

/-- Initial values of the `useState` cells (lines 42-54); `mountIds` is what `col.id`
reads for each column while the reduce of lines 44-47 runs, and the component starts
in `init mountColumnIds`. -/
def init (mountIds : List String) : State where
  globalFilter := ""
  columnVisibility := allVisible mountIds
  tempColumnVisibility := allVisible mountIds
  filters := []
  drawerOpen := false
  drawerContent := none
  groupBy := []
  tempGroupBy := []

/-- The committed view state: line 147, `{ globalFilter, columnVisibility, filters, grouping: groupBy }`. -/
def committed (s : State) : ViewState where
  globalFilter := s.globalFilter
  columnVisibility := s.columnVisibility
  filters := s.filters
  grouping := s.groupBy

/-! ## Row production -/

/-- The `data` memo (lines 61-66): a truthy `globalFilter` (a non-empty string) goes
through the index, anything else returns `sampleData` itself. -/
def data (sampleData : List Record) (fuse : String → List FuseResult) (s : State) :
    List Record :=
  if s.globalFilter ≠ "" then (fuse s.globalFilter).map (fun r => r.item) else sampleData

/-! ## Handlers -/

/-- Logical not of a property read: `!prev[columnId]`, with `!undefined = true`. -/
def notProp : Option Bool → Bool
  | some b => !b
  | none => true

/-- Lines 68-70. -/
def handleSearch (s : State) (value : String) : State :=
  { s with globalFilter := value }

/-- Lines 72-77. -/
def handleColumnVisibility (s : State) (columnId : String) : State :=
  { s with tempColumnVisibility :=
      objSet s.tempColumnVisibility columnId (notProp (objGet s.tempColumnVisibility columnId)) }

/-- Lines 79-84. -/
def handleFilter (s : State) (columnId : String) (value : FilterValue) : State :=
  { s with filters := objSet s.filters columnId value }

/-- Lines 86-89. -/
def toggleDrawer (s : State) (content : Option String) : State :=
  { s with drawerContent := content, drawerOpen := !s.drawerOpen }

/-- Lines 91-93. -/
def handleGroupChange (s : State) (value : List String) : State :=
  { s with tempGroupBy := value }

/-- Lines 95-98. -/
def handleGroupApply (s : State) : State :=
  toggleDrawer { s with groupBy := s.tempGroupBy } none

/-- Lines 100-103. -/
def handleGroupCancel (s : State) : State :=
  toggleDrawer { s with tempGroupBy := [] } none

/-- Lines 105-108. -/
def handleColumnApply (s : State) : State :=
  toggleDrawer { s with columnVisibility := s.tempColumnVisibility } none

/-- Lines 110-116. -/
def handleShowAllColumns (cols : List String) (s : State) : State :=
  { s with tempColumnVisibility := allVisible cols }

/-- The drawer's `onClose` (line 157): `setDrawerOpen(false)`. -/
def onClose (s : State) : State :=
  { s with drawerOpen := false }

/-- Whether the drawer is open and renders the block guarded by
`drawerContent === p` (lines 157, 158, 182, 252). -/
def panelShown (s : State) (p : String) : Bool :=
  s.drawerOpen && (s.drawerContent == some p)

/-! ## Events -/

/-- One call of a handler of the component. -/
inductive Event where
  | handleSearch (value : String)
  | handleColumnVisibility (columnId : String)
  | handleFilter (columnId : String) (value : FilterValue)
  | toggleDrawer (content : Option String)
  | handleGroupChange (value : List String)
  | handleGroupApply
  | handleGroupCancel
  | handleColumnApply
  | handleShowAllColumns
  | onClose
deriving DecidableEq, Repr

/-- Run one handler. -/
def step (cols : List String) (s : State) : Event → State
  | .handleSearch v => handleSearch s v
  | .handleColumnVisibility c => handleColumnVisibility s c
  | .handleFilter c v => handleFilter s c v
  | .toggleDrawer c => toggleDrawer s c
  | .handleGroupChange v => handleGroupChange s v
  | .handleGroupApply => handleGroupApply s
  | .handleGroupCancel => handleGroupCancel s
  | .handleColumnApply => handleColumnApply s
  | .handleShowAllColumns => handleShowAllColumns cols s
  | .onClose => onClose s

/-- Run a sequence of handler calls, oldest first. -/
def run (cols : List String) (s : State) (evs : List Event) : State :=
  evs.foldl (step cols) s

/-- The draft edits of the visibility and grouping panels. -/
def Event.isDraftEdit : Event → Bool
  | .handleColumnVisibility _ => true
  | .handleShowAllColumns => true
  | .handleGroupChange _ => true
  | _ => false

/-- The two ways of dismissing the drawer without applying. -/
def Event.isCancel : Event → Bool
  | .handleGroupCancel => true
  | .onClose => true
  | _ => false

/-- The state is reached from the initial one by some sequence of handler calls;
`mountIds` are the column ids read at mount, `cols` the ones read by the handlers. -/
def Reachable (mountIds cols : List String) (s : State) : Prop :=
  ∃ evs : List Event, run cols (init mountIds) evs = s

/-- `handleColumnApply` (lines 105-108) as created by the render of `r` and run on the
pending state `s`: `tempColumnVisibility` and `drawerOpen` are read from the closure. -/
def handleColumnApplyFrom (r s : State) : State :=
  { s with columnVisibility := r.tempColumnVisibility,
           drawerContent := none, drawerOpen := !r.drawerOpen }

/-- `handleGroupApply` (lines 95-98) as created by the render of `r` and run on the
pending state `s`: `tempGroupBy` and `drawerOpen` are read from the closure. -/
def handleGroupApplyFrom (r s : State) : State :=
  { s with groupBy := r.tempGroupBy, drawerContent := none, drawerOpen := !r.drawerOpen }

/-- The button bound to `handleColumnApply` (line 177) is rendered only inside the
block guarded by `drawerContent === 'columns'` (line 158). -/
def columnApplyMounted (s : State) : Bool :=
  s.drawerContent == some "columns"

/-- The buttons bound to `handleGroupApply` (lines 247, 264) are rendered only inside
the blocks guarded by `drawerContent === 'filters'` (line 182) and
`drawerContent === 'group'` (line 252). -/
def groupApplyMounted (s : State) : Bool :=
  (s.drawerContent == some "filters") || (s.drawerContent == some "group")

/-- A press of the visibility panel's Apply button: the handler runs when the button
is rendered, and there is nothing to press otherwise. -/
def pressColumnApply (s : State) : State :=
  if columnApplyMounted s then handleColumnApply s else s

/-- A press of a button bound to `handleGroupApply`: the handler runs when such a
button is rendered, and there is nothing to press otherwise. -/
def pressGroupApply (s : State) : State :=
  if groupApplyMounted s then handleGroupApply s else s

/-- Open the grouping panel, pick `category`, dismiss the drawer through `onClose`. -/
def abandonedGroupEdit : List Event :=
  [Event.toggleDrawer (some "group"), Event.handleGroupChange ["category"], Event.onClose]

/-- Open the grouping panel, pick `category`, apply; open it again and cancel. -/
def cancelAfterGroupApply : List Event :=
  [Event.toggleDrawer (some "group"), Event.handleGroupChange ["category"],
    Event.handleGroupApply, Event.toggleDrawer (some "group"), Event.handleGroupCancel]

/-- Open the visibility panel, toggle `name`, dismiss the drawer through `onClose`. -/
def abandonedColumnEdit : List Event :=
  [Event.toggleDrawer (some "columns"), Event.handleColumnVisibility "name", Event.onClose]

/-- Open the visibility panel, show all columns, hide `name`, pick a grouping. -/
def hideNameAndGroup : List Event :=
  [Event.toggleDrawer (some "columns"), Event.handleShowAllColumns,
    Event.handleColumnVisibility "name", Event.handleGroupChange ["category"]]

/-- A record used to evaluate the row production on a non-empty collection. -/
def record1 : Record where
  id := 1
  name := "Widget"
  category := "A"
  subcategory := "A1"
  price := 7
  createdAt := "2024-01-01T00:00:00Z"
  updatedAt := "2024-01-02T00:00:00Z"

/-- An index whose search finds nothing. -/
def fuseNoMatch : String → List FuseResult :=
  fun _ => []

/-! ## Property reads after writes -/

theorem objGet_objSet {V : Type} (o : JsObject V) (k c : String) (v : V) :
    objGet (objSet o k v) c = if k = c then some v else objGet o c := by
  induction o with
  | nil => simp [objSet, objGet]
  | cons hd tl ih =>
    obtain ⟨k', v'⟩ := hd
    by_cases h : k' = k
    · subst h
      by_cases h2 : k' = c <;> simp [objSet, objGet, h2]
    · by_cases h2 : k' = c
      · subst h2
        have h3 : ¬ k = k' := fun e => h e.symm
        simp [objSet, objGet, h, h3]
      · simp [objSet, objGet, h, h2, ih]

theorem objGet_objSet_self {V : Type} (o : JsObject V) (k : String) (v : V) :
    objGet (objSet o k v) k = some v := by
  simp [objGet_objSet]

theorem objGet_objSet_other {V : Type} (o : JsObject V) (k c : String) (v : V) (h : c ≠ k) :
    objGet (objSet o k v) c = objGet o c := by
  have h2 : ¬ k = c := fun e => h e.symm
  simp [objGet_objSet, h2]

theorem objGet_foldl_objSet (cols : List String) (acc : JsObject Bool) (c : String) :
    objGet (cols.foldl (fun a col => objSet a col true) acc) c =
      if c ∈ cols then some true else objGet acc c := by
  induction cols generalizing acc with
  | nil => simp
  | cons col rest ih =>
    rw [List.foldl_cons, ih]
    by_cases h : c ∈ rest
    · simp [h]
    · by_cases h2 : col = c
      · subst h2
        simp [h, objGet_objSet]
      · have h3 : ¬ c = col := fun e => h2 e.symm
        simp [h, h2, h3, objGet_objSet]

theorem objGet_allVisible (cols : List String) (c : String) :
    objGet (allVisible cols) c = if c ∈ cols then some true else none := by
  unfold allVisible
  rw [objGet_foldl_objSet]
  simp [objGet]

/-! ## Frame lemmas -/

theorem committed_step_draftEdit (cols : List String) (s : State) (e : Event)
    (h : e.isDraftEdit = true) : committed (step cols s e) = committed s := by
  cases e <;> first | rfl | simp [Event.isDraftEdit] at h

theorem committed_step_cancel (cols : List String) (s : State) (e : Event)
    (h : e.isCancel = true) : committed (step cols s e) = committed s := by
  cases e <;> first | rfl | simp [Event.isCancel] at h

theorem committed_run_draftEdits (cols : List String) (evs : List Event) (s : State)
    (h : ∀ e ∈ evs, e.isDraftEdit = true) : committed (run cols s evs) = committed s := by
  induction evs generalizing s with
  | nil => rfl
  | cons e rest ih =>
    have h1 : e.isDraftEdit = true := h e (List.mem_cons_self e rest)
    have h2 : ∀ x ∈ rest, x.isDraftEdit = true := fun x hx => h x (List.mem_cons_of_mem e hx)
    show committed (run cols (step cols s e) rest) = committed s
    rw [ih (step cols s e) h2, committed_step_draftEdit cols s e h1]

/-! ## Cancelling and applying -/

/-- C1: after any sequence of visibility/grouping draft edits followed by a cancel
(`handleGroupCancel` or the drawer's `onClose`), the committed view state is the one
before the sequence; moreover the committed `columnVisibility` is written by no handler
other than `handleColumnApply`, and the committed `groupBy` by none other than
`handleGroupApply`. -/
theorem cancel_after_draft_edits_keeps_committed (cols : List String) (s : State)
    (evs : List Event) (c : Event)
    (hevs : ∀ e ∈ evs, e.isDraftEdit = true) (hc : c.isCancel = true) :
    committed (step cols (run cols s evs) c) = committed s ∧
    (∀ (t : State) (e : Event), e ≠ Event.handleColumnApply →
      (step cols t e).columnVisibility = t.columnVisibility) ∧
    (∀ (t : State) (e : Event), e ≠ Event.handleGroupApply →
      (step cols t e).groupBy = t.groupBy) := by
  refine ⟨?_, ?_, ?_⟩
  · rw [committed_step_cancel cols _ c hc, committed_run_draftEdits cols evs s hevs]
  · intro t e he
    cases e <;> first | rfl | exact absurd rfl he
  · intro t e he
    cases e <;> first | rfl | exact absurd rfl he

/-- C1 at the initial state: toggle `name`, show all, pick a grouping, then cancel. -/
theorem cancel_after_draft_edits_keeps_committed_witness :
    (∀ e ∈ [Event.handleColumnVisibility "name", Event.handleShowAllColumns,
        Event.handleGroupChange ["category"]], e.isDraftEdit = true) ∧
    Event.isCancel Event.handleGroupCancel = true ∧
    committed (step columns (run columns (init mountColumnIds)
      [Event.handleColumnVisibility "name", Event.handleShowAllColumns,
        Event.handleGroupChange ["category"]]) Event.handleGroupCancel)
      = committed (init mountColumnIds) :=
  ⟨by simp [Event.isDraftEdit], rfl,
    (cancel_after_draft_edits_keeps_committed columns (init mountColumnIds)
      [Event.handleColumnVisibility "name", Event.handleShowAllColumns,
        Event.handleGroupChange ["category"]] Event.handleGroupCancel
      (by simp [Event.isDraftEdit]) rfl).1⟩

/-- C2 (as stated, refuted): with the filter panel open in the initial state,
`handleFilter('price', [0, 500])` changes the committed `filters` at once, and the
panel's cancel handler `handleGroupCancel` does not bring the earlier value back. -/
theorem handleFilter_is_not_a_draft_edit :
    (handleFilter (toggleDrawer (init mountColumnIds) (some "filters")) "price"
        (FilterValue.range [0, 500])).filters
      ≠ (toggleDrawer (init mountColumnIds) (some "filters")).filters ∧
    (handleGroupCancel (handleFilter (toggleDrawer (init mountColumnIds) (some "filters")) "price"
        (FilterValue.range [0, 500]))).filters
      ≠ (init mountColumnIds).filters := by
  constructor <;> simp [handleFilter, handleGroupCancel, toggleDrawer, init, objSet]

/-- C2 (amended): `handleFilter(c, v)` writes the committed `filters` directly: the
entry for `c` becomes `v` and every other entry is as before; the filter panel's
cancel (`handleGroupCancel`) and apply (`handleGroupApply`) handlers and the drawer's
`onClose` leave the committed `filters` as the edits made them. -/
theorem handleFilter_commits_immediately (s : State) (c : String) (v : FilterValue) :
    (committed (handleFilter s c v)).filters = objSet s.filters c v ∧
    objGet (committed (handleFilter s c v)).filters c = some v ∧
    (∀ c2 : String, c2 ≠ c →
      objGet (committed (handleFilter s c v)).filters c2 = objGet (committed s).filters c2) ∧
    (committed (handleGroupCancel (handleFilter s c v))).filters
      = (committed (handleFilter s c v)).filters ∧
    (committed (handleGroupApply (handleFilter s c v))).filters
      = (committed (handleFilter s c v)).filters ∧
    (committed (onClose (handleFilter s c v))).filters
      = (committed (handleFilter s c v)).filters := by
  refine ⟨rfl, ?_, ?_, rfl, rfl, rfl⟩
  · exact objGet_objSet_self s.filters c v
  · intro c2 h
    exact objGet_objSet_other s.filters c c2 v h

/-- C2 (amended) at the initial state: a price range is committed, `name` stays unset. -/
theorem handleFilter_commits_immediately_witness :
    "name" ≠ "price" ∧
    objGet (committed (handleFilter (init mountColumnIds) "price" (FilterValue.range [0, 500]))).filters
      "price" = some (FilterValue.range [0, 500]) ∧
    objGet (committed (handleFilter (init mountColumnIds) "price" (FilterValue.range [0, 500]))).filters
      "name" = objGet (committed (init mountColumnIds)).filters "name" :=
  ⟨by decide,
    (handleFilter_commits_immediately (init mountColumnIds) "price" (FilterValue.range [0, 500])).2.1,
    (handleFilter_commits_immediately (init mountColumnIds) "price"
      (FilterValue.range [0, 500])).2.2.1 "name" (by decide)⟩

/-- C3: with the drawer open, `handleColumnApply` makes the committed `columnVisibility`
the prior draft and `handleGroupApply` makes the committed `groupBy` the prior draft;
both close the drawer (`drawerOpen = false`, `drawerContent = null`) and change no
other cell. -/
theorem apply_commits_draft_and_closes (s : State) (h : s.drawerOpen = true) :
    (handleColumnApply s =
        { s with columnVisibility := s.tempColumnVisibility,
                 drawerOpen := false, drawerContent := none } ∧
      committed (handleColumnApply s) =
        { committed s with columnVisibility := s.tempColumnVisibility }) ∧
    (handleGroupApply s =
        { s with groupBy := s.tempGroupBy, drawerOpen := false, drawerContent := none } ∧
      committed (handleGroupApply s) = { committed s with grouping := s.tempGroupBy }) := by
  refine ⟨⟨?_, rfl⟩, ⟨?_, rfl⟩⟩
  · simp [handleColumnApply, toggleDrawer, h]
  · simp [handleGroupApply, toggleDrawer, h]

/-- C3 on the open visibility panel after show-all, hiding `name` and picking a
grouping. -/
theorem apply_commits_draft_and_closes_witness :
    (run columns (init mountColumnIds) hideNameAndGroup).drawerOpen = true ∧
    (handleColumnApply (run columns (init mountColumnIds) hideNameAndGroup)).drawerOpen
      = false ∧
    objGet (handleColumnApply
      (run columns (init mountColumnIds) hideNameAndGroup)).columnVisibility "name"
      = some false ∧
    (handleGroupApply (run columns (init mountColumnIds) hideNameAndGroup)).groupBy
      = ["category"] := by
  have hopen : (run columns (init mountColumnIds) hideNameAndGroup).drawerOpen = true := rfl
  have h := apply_commits_draft_and_closes _ hopen
  refine ⟨hopen, ?_, ?_, ?_⟩
  · rw [h.1.1]
  · rw [h.1.1]
    decide
  · rw [h.2.1]
    rfl

/-- C4: applying twice in a row gives the state of applying once. The apply handler
of one render run twice writes the same values twice; after an apply
`drawerContent` is `null`, so no apply button is rendered and a further press changes
nothing; and applying again after reopening a panel, with no edit in between, gives
the state of the first apply. Holds for `handleColumnApply` and `handleGroupApply`. -/
theorem apply_twice_is_apply_once (r s : State) (p : String) :
    handleColumnApplyFrom s s = handleColumnApply s ∧
    handleGroupApplyFrom s s = handleGroupApply s ∧
    handleColumnApplyFrom r (handleColumnApplyFrom r s) = handleColumnApplyFrom r s ∧
    handleGroupApplyFrom r (handleGroupApplyFrom r s) = handleGroupApplyFrom r s ∧
    columnApplyMounted (handleColumnApply s) = false ∧
    groupApplyMounted (handleColumnApply s) = false ∧
    columnApplyMounted (handleGroupApply s) = false ∧
    groupApplyMounted (handleGroupApply s) = false ∧
    pressColumnApply (pressColumnApply s) = pressColumnApply s ∧
    pressGroupApply (pressGroupApply s) = pressGroupApply s ∧
    handleColumnApply (toggleDrawer (handleColumnApply s) (some p)) = handleColumnApply s ∧
    handleGroupApply (toggleDrawer (handleGroupApply s) (some p)) = handleGroupApply s := by
  refine ⟨rfl, rfl, rfl, rfl, rfl, rfl, rfl, rfl, ?_, ?_, ?_, ?_⟩
  · unfold pressColumnApply
    by_cases h : columnApplyMounted s = true
    · have h2 : columnApplyMounted (handleColumnApply s) = false := rfl
      simp [h, h2]
    · simp [h]
  · unfold pressGroupApply
    by_cases h : groupApplyMounted s = true
    · have h2 : groupApplyMounted (handleGroupApply s) = false := rfl
      simp [h, h2]
    · simp [h]
  · simp [handleColumnApply, toggleDrawer]
  · simp [handleGroupApply, toggleDrawer]

/-! ## Opening panels -/

/-- C5 (as stated, refuted): three reachable states with the drawer closed in which
opening a panel shows a draft that is not the committed value: the grouping panel after
an edit abandoned through `onClose`, the grouping panel after an apply followed by a
cancel, and the visibility panel after a click on `name` abandoned through `onClose`
(the draft then has an entry for `name`, the committed map has none). -/
theorem open_does_not_reset_draft :
    Reachable mountColumnIds columns (run columns (init mountColumnIds) abandonedGroupEdit) ∧
    (run columns (init mountColumnIds) abandonedGroupEdit).drawerOpen = false ∧
    (toggleDrawer (run columns (init mountColumnIds) abandonedGroupEdit)
      (some "group")).tempGroupBy = ["category"] ∧
    (toggleDrawer (run columns (init mountColumnIds) abandonedGroupEdit)
      (some "group")).groupBy = [] ∧
    Reachable mountColumnIds columns
      (run columns (init mountColumnIds) cancelAfterGroupApply) ∧
    (run columns (init mountColumnIds) cancelAfterGroupApply).drawerOpen = false ∧
    (toggleDrawer (run columns (init mountColumnIds) cancelAfterGroupApply)
      (some "group")).tempGroupBy = [] ∧
    (toggleDrawer (run columns (init mountColumnIds) cancelAfterGroupApply)
      (some "group")).groupBy = ["category"] ∧
    Reachable mountColumnIds columns (run columns (init mountColumnIds) abandonedColumnEdit) ∧
    (run columns (init mountColumnIds) abandonedColumnEdit).drawerOpen = false ∧
    objGet (toggleDrawer (run columns (init mountColumnIds) abandonedColumnEdit)
      (some "columns")).tempColumnVisibility "name" = some true ∧
    objGet (toggleDrawer (run columns (init mountColumnIds) abandonedColumnEdit)
      (some "columns")).columnVisibility "name" = none :=
  ⟨⟨_, rfl⟩, rfl, rfl, rfl, ⟨_, rfl⟩, rfl, rfl, rfl, ⟨_, rfl⟩, rfl, by decide, by decide⟩

/-- C5 (amended): opening a panel from a closed drawer sets `drawerOpen = true` and
`drawerContent` to the panel and leaves both drafts and every committed cell as they
were, so after opening a draft equals its committed value exactly when it did before
opening; it does in the initial state, and in every state right after the matching
apply (which keeps the draft and commits it), also once a panel is opened from there. -/
theorem open_keeps_drafts (mountIds : List String) (s : State) (p : String)
    (h : s.drawerOpen = false) :
    (toggleDrawer s (some p)).drawerOpen = true ∧
    (toggleDrawer s (some p)).drawerContent = some p ∧
    (toggleDrawer s (some p)).tempColumnVisibility = s.tempColumnVisibility ∧
    (toggleDrawer s (some p)).tempGroupBy = s.tempGroupBy ∧
    committed (toggleDrawer s (some p)) = committed s ∧
    ((toggleDrawer s (some p)).tempColumnVisibility = (toggleDrawer s (some p)).columnVisibility
      ↔ s.tempColumnVisibility = s.columnVisibility) ∧
    ((toggleDrawer s (some p)).tempGroupBy = (toggleDrawer s (some p)).groupBy
      ↔ s.tempGroupBy = s.groupBy) ∧
    (init mountIds).tempColumnVisibility = (init mountIds).columnVisibility ∧
    (init mountIds).tempGroupBy = (init mountIds).groupBy ∧
    (∀ t : State,
      (handleColumnApply t).tempColumnVisibility = t.tempColumnVisibility ∧
      (handleColumnApply t).columnVisibility = t.tempColumnVisibility ∧
      (handleColumnApply t).tempColumnVisibility = (handleColumnApply t).columnVisibility) ∧
    (∀ t : State,
      (handleGroupApply t).tempGroupBy = t.tempGroupBy ∧
      (handleGroupApply t).groupBy = t.tempGroupBy ∧
      (handleGroupApply t).tempGroupBy = (handleGroupApply t).groupBy) ∧
    (∀ (t : State) (q : String),
      (toggleDrawer (handleColumnApply t) (some q)).tempColumnVisibility
        = (toggleDrawer (handleColumnApply t) (some q)).columnVisibility) ∧
    (∀ (t : State) (q : String),
      (toggleDrawer (handleGroupApply t) (some q)).tempGroupBy
        = (toggleDrawer (handleGroupApply t) (some q)).groupBy) := by
  refine ⟨?_, rfl, rfl, rfl, rfl, Iff.rfl, Iff.rfl, rfl, rfl, ?_, ?_, ?_, ?_⟩
  · simp [toggleDrawer, h]
  · intro t
    exact ⟨rfl, rfl, rfl⟩
  · intro t
    exact ⟨rfl, rfl, rfl⟩
  · intro t q
    rfl
  · intro t q
    rfl

/-- C5 (amended) in the initial state: the visibility panel opens on a draft equal to
the committed map. -/
theorem open_keeps_drafts_witness :
    (init mountColumnIds).drawerOpen = false ∧
    (toggleDrawer (init mountColumnIds) (some "columns")).drawerOpen = true ∧
    (toggleDrawer (init mountColumnIds) (some "columns")).tempColumnVisibility
      = (toggleDrawer (init mountColumnIds) (some "columns")).columnVisibility :=
  ⟨rfl, (open_keeps_drafts mountColumnIds (init mountColumnIds) "columns" rfl).1,
    (open_keeps_drafts mountColumnIds (init mountColumnIds) "columns" rfl).2.2.2.2.2.1.mpr rfl⟩

/-- C6 (as stated, refuted): with the visibility panel open, `toggleDrawer('filters')`
leaves the drawer closed, so the filter panel is not the open panel. -/
theorem toggle_on_open_drawer_closes :
    (toggleDrawer (init mountColumnIds) (some "columns")).drawerOpen = true ∧
    (toggleDrawer (init mountColumnIds) (some "columns")).drawerContent = some "columns" ∧
    (toggleDrawer (toggleDrawer (init mountColumnIds) (some "columns")) (some "filters")).drawerOpen
      = false ∧
    panelShown (toggleDrawer (toggleDrawer (init mountColumnIds) (some "columns")) (some "filters"))
      "filters" = false :=
  ⟨rfl, rfl, rfl, rfl⟩

/-- C6 (amended): on an open drawer `toggleDrawer(q)` sets `drawerContent = q` and
`drawerOpen = false`, so afterwards no panel is shown and the rest of the state is
untouched; `q` becomes the shown panel when `toggleDrawer(q)` runs on a closed drawer;
in every state at most one panel is shown. -/
theorem toggle_on_open_drawer (s : State) (q : String) (h : s.drawerOpen = true) :
    toggleDrawer s (some q) = { s with drawerContent := some q, drawerOpen := false } ∧
    (∀ p : String, panelShown (toggleDrawer s (some q)) p = false) ∧
    (∀ t : State, t.drawerOpen = false → panelShown (toggleDrawer t (some q)) q = true) ∧
    (∀ (t : State) (p1 p2 : String),
      panelShown t p1 = true → panelShown t p2 = true → p1 = p2) := by
  refine ⟨?_, ?_, ?_, ?_⟩
  · simp [toggleDrawer, h]
  · intro p
    simp [panelShown, toggleDrawer, h]
  · intro t ht
    simp [panelShown, toggleDrawer, ht]
  · intro t p1 p2 h1 h2
    simp only [panelShown, Bool.and_eq_true, beq_iff_eq] at h1 h2
    have h3 : some p1 = some p2 := h1.2.symm.trans h2.2
    exact Option.some.inj h3

/-- C6 (amended) on the open visibility panel of the initial state. -/
theorem toggle_on_open_drawer_witness :
    (toggleDrawer (init mountColumnIds) (some "columns")).drawerOpen = true ∧
    toggleDrawer (toggleDrawer (init mountColumnIds) (some "columns")) (some "filters")
      = { toggleDrawer (init mountColumnIds) (some "columns") with
          drawerContent := some "filters", drawerOpen := false } ∧
    panelShown (toggleDrawer (toggleDrawer (init mountColumnIds) (some "columns")) (some "filters"))
      "columns" = false :=
  ⟨rfl, (toggle_on_open_drawer (toggleDrawer (init mountColumnIds) (some "columns")) "filters" rfl).1,
    (toggle_on_open_drawer (toggleDrawer (init mountColumnIds) (some "columns")) "filters" rfl).2.1
      "columns"⟩

/-! ## Column visibility -/

/-- C7: `handleShowAllColumns` replaces the draft by the map that sends every column
id to `true` and has no other key (for the accessor keys: `id`, `name`, `category`,
`subcategory`, `price`, `createdAt`, `updatedAt`); every other cell, the committed
`columnVisibility` included, is unchanged, and a following `handleColumnApply` makes
that map the committed one. -/
theorem showAll_edits_only_the_draft (cols : List String) (s : State) :
    (∀ c : String, c ∈ cols →
      objGet (handleShowAllColumns cols s).tempColumnVisibility c = some true) ∧
    (∀ c : String, c ∉ cols →
      objGet (handleShowAllColumns cols s).tempColumnVisibility c = none) ∧
    (handleShowAllColumns columns s).tempColumnVisibility =
      [("id", true), ("name", true), ("category", true), ("subcategory", true),
        ("price", true), ("createdAt", true), ("updatedAt", true)] ∧
    handleShowAllColumns cols s = { s with tempColumnVisibility := allVisible cols } ∧
    committed (handleShowAllColumns cols s) = committed s ∧
    (handleShowAllColumns cols s).columnVisibility = s.columnVisibility ∧
    (handleColumnApply (handleShowAllColumns cols s)).columnVisibility = allVisible cols ∧
    (∀ c : String, c ∈ cols →
      objGet (handleColumnApply (handleShowAllColumns cols s)).columnVisibility c
        = some true) := by
  refine ⟨?_, ?_, ?_, rfl, rfl, rfl, rfl, ?_⟩
  · intro c hc
    show objGet (allVisible cols) c = some true
    rw [objGet_allVisible, if_pos hc]
  · intro c hc
    show objGet (allVisible cols) c = none
    rw [objGet_allVisible, if_neg hc]
  · show allVisible columns = _
    decide
  · intro c hc
    show objGet (allVisible cols) c = some true
    rw [objGet_allVisible, if_pos hc]

/-- C7 after show-all and hiding `price` in the draft: the reset shows it again in
the draft, and `total` is not a key. -/
theorem showAll_edits_only_the_draft_witness :
    "price" ∈ columns ∧ "total" ∉ columns ∧
    objGet (handleColumnVisibility (handleShowAllColumns columns (init mountColumnIds))
      "price").tempColumnVisibility "price" = some false ∧
    objGet (handleShowAllColumns columns (handleColumnVisibility
      (handleShowAllColumns columns (init mountColumnIds)) "price")).tempColumnVisibility
      "price" = some true ∧
    objGet (handleShowAllColumns columns (handleColumnVisibility
      (handleShowAllColumns columns (init mountColumnIds)) "price")).tempColumnVisibility
      "total" = none :=
  ⟨by decide, by decide, by decide,
    (showAll_edits_only_the_draft columns (handleColumnVisibility
      (handleShowAllColumns columns (init mountColumnIds)) "price")).1 "price" (by decide),
    (showAll_edits_only_the_draft columns (handleColumnVisibility
      (handleShowAllColumns columns (init mountColumnIds)) "price")).2.1 "total" (by decide)⟩

/-- C9 (the code at the failing input): at mount `col.id` is `undefined` for every
column definition, so the reduce of lines 44-47 leaves `columnVisibility` and
`tempColumnVisibility` as the one-entry map with key `"undefined"`: none of the seven
column ids has an entry in either map, and the committed map still has none for `id`
after `name` has been clicked and applied. -/
theorem columnVisibility_lacks_columns_at_mount :
    mountColumnIds = ["undefined", "undefined", "undefined", "undefined", "undefined",
      "undefined", "undefined"] ∧
    (init mountColumnIds).columnVisibility = [("undefined", true)] ∧
    (init mountColumnIds).tempColumnVisibility = [("undefined", true)] ∧
    columns.all (fun c => (objGet (init mountColumnIds).columnVisibility c).isNone) = true ∧
    columns.all (fun c => (objGet (init mountColumnIds).tempColumnVisibility c).isNone)
      = true ∧
    objGet (init mountColumnIds).columnVisibility "name" = none ∧
    objGet (init mountColumnIds).tempColumnVisibility "name" = none ∧
    Reachable mountColumnIds columns (run columns (init mountColumnIds)
      [Event.toggleDrawer (some "columns"), Event.handleColumnVisibility "name",
        Event.handleColumnApply]) ∧
    (run columns (init mountColumnIds)
      [Event.toggleDrawer (some "columns"), Event.handleColumnVisibility "name",
        Event.handleColumnApply]).columnVisibility = [("undefined", true), ("name", true)] ∧
    objGet (run columns (init mountColumnIds)
      [Event.toggleDrawer (some "columns"), Event.handleColumnVisibility "name",
        Event.handleColumnApply]).columnVisibility "id" = none :=
  ⟨by decide, by decide, by decide, by decide, by decide, by decide, by decide,
    ⟨_, rfl⟩, by decide, by decide⟩

/-! ## Row production -/

/-- C8: with `globalFilter` the empty string, `data` is `sampleData` itself (same
records, order and length) whatever the index would answer; with a non-empty query
for which the index returns no match, `data` is empty. -/
theorem data_of_empty_query_and_of_no_match (sampleData : List Record) (s : State) :
    (s.globalFilter = "" → ∀ fuse : String → List FuseResult,
      data sampleData fuse s = sampleData ∧
      (data sampleData fuse s).length = sampleData.length) ∧
    (s.globalFilter = "" → ∀ fuse1 fuse2 : String → List FuseResult,
      data sampleData fuse1 s = data sampleData fuse2 s) ∧
    (∀ fuse : String → List FuseResult, s.globalFilter ≠ "" → fuse s.globalFilter = [] →
      data sampleData fuse s = []) := by
  refine ⟨?_, ?_, ?_⟩
  · intro h fuse
    have hd : data sampleData fuse s = sampleData := by simp [data, h]
    exact ⟨hd, by rw [hd]⟩
  · intro h fuse1 fuse2
    simp [data, h]
  · intro fuse h hf
    simp [data, h, hf]

/-- C8 on a one-record store: the initial (empty) query returns the store, the query
`zzz` against an index without matches returns nothing. -/
theorem data_of_empty_query_and_of_no_match_witness :
    (init mountColumnIds).globalFilter = "" ∧
    data [record1] fuseNoMatch (init mountColumnIds) = [record1] ∧
    (handleSearch (init mountColumnIds) "zzz").globalFilter ≠ "" ∧
    fuseNoMatch (handleSearch (init mountColumnIds) "zzz").globalFilter = [] ∧
    data [record1] fuseNoMatch (handleSearch (init mountColumnIds) "zzz") = [] :=
  ⟨rfl,
    ((data_of_empty_query_and_of_no_match [record1] (init mountColumnIds)).1 rfl fuseNoMatch).1,
    by decide, rfl,
    (data_of_empty_query_and_of_no_match [record1] (handleSearch (init mountColumnIds) "zzz")).2.2
      fuseNoMatch (by decide) rfl⟩

/-- C10 (the code at the failing input): after `handleFilter('price', [10, 5])` on the
initial state the price range is in `filters`, yet `data` over the one-record store is
still that record, whose price 7 is outside the range; `data` never depends on
`filters`. -/
theorem data_ignores_filters :
    objGet (handleFilter (init mountColumnIds) "price" (FilterValue.range [10, 5])).filters "price"
      = some (FilterValue.range [10, 5]) ∧
    data [record1] fuseNoMatch (handleFilter (init mountColumnIds) "price" (FilterValue.range [10, 5]))
      = [record1] ∧
    ¬ (10 ≤ record1.price ∧ record1.price ≤ 5) ∧
    (∀ (sampleData : List Record) (fuse : String → List FuseResult) (s : State)
        (f : JsObject FilterValue),
      data sampleData fuse { s with filters := f } = data sampleData fuse s) := by
  refine ⟨by decide, by decide, by decide, ?_⟩
  intro sampleData fuse s f
  rfl

end DataTable
